import Mathlib

/-!
# Verification of the api-forge generation pipeline

A shallow embedding, in Lean 4, of the parts of the `api_forge` Python
package that the specification's claims are about:

* `api_forge/schema_org/models.py` — the entity data model
  (`SchemaProperty`, `RelationshipInfo`, `SchemaEntity`, `EntityAnalysis`,
  `ValidationRule`, the `RelationshipType` enumeration);
* `api_forge/schema_org/relationship_resolver.py` — cardinality inference;
* `api_forge/schema_org/validation_extractor.py` — validation-rule
  extraction;
* `api_forge/schema_org/type_mapper.py` — type resolution;
* `api_forge/json_metadata/loader.py` — foreign-key cross-validation;
* `api_forge/core/config.py` — project-configuration save/load;
* `api_forge/ai/agents.py` — the entity-analysis agent's error recovery;
* `api_forge/generators/base.py` and
  `api_forge/generators/orchestrator.py` — artifact validation and the
  write/skip discipline.

Conventions of the embedding:

* Python `str` is Lean `String`; Python substring containment
  (`sub in s`) is `strContains`; `str.lower()` is `strLower`
  (ASCII lowering, which covers every token the code compares against).
* Python dicts whose values the code reads are association lists
  `List (String × MetaValue)`; `dict.get(k)` is `jget`, `dict.get(k, d)`
  is `jgetD`.  Python dict truthiness (`if d:`) is "present and
  non-empty".
* Fallible code is `Except`; mutation is explicit state passing; the
  file system is an association list from path to content, and an I/O
  write failure is modelled by an explicit oracle `failing : String → Bool`
  (the `except` branch of the Python writer).
-/

/-! ## Generic helpers: strings and dictionaries -/

/-- Substring containment on character lists: `needle` occurs inside
`hay` (Python's `needle in hay` for strings). -/
def listContainsSub (hay needle : List Char) : Bool :=
  match hay with
  | [] => needle.isEmpty
  | _ :: t => needle.isPrefixOf hay || listContainsSub t needle

/-- Python `sub in s` for strings. -/
def strContains (s sub : String) : Bool :=
  listContainsSub s.data sub.data

/-- ASCII lower-casing of one character. -/
def charLower (c : Char) : Char :=
  if 65 ≤ c.toNat ∧ c.toNat ≤ 90 then Char.ofNat (c.toNat + 32) else c

/-- Python `s.lower()` (ASCII range; every token the code compares
against is ASCII). -/
def strLower (s : String) : String :=
  ⟨s.data.map charLower⟩

/-- Python `s.endswith(suffix)`. -/
def strEndsWith (s suffix : String) : Bool :=
  suffix.data.isSuffixOf s.data

/-- Scalar values stored inside the free-form Python dicts
(`metadata`, `params`, `details`, YAML leaves).  `strList` covers the
one place a list value is stored (the error list inside a
code-generation error's detail bag). -/
inductive MetaValue where
  | s (v : String)
  | i (v : Int)
  | b (v : Bool)
  | null
  | strList (vs : List String)
deriving DecidableEq, Repr

/-- Python `dict[key]` access on an association list (`None` when the
key is absent).  Python dicts have unique keys, so first-match lookup
is exact. -/
def jget : List (String × MetaValue) → String → Option MetaValue
  | [], _ => none
  | (k, v) :: t, key => if k = key then some v else jget t key

/-- Python `dict.get(key, default)`. -/
def jgetD (d : List (String × MetaValue)) (key : String) (dflt : MetaValue) : MetaValue :=
  (jget d key).getD dflt

/-! ## `api_forge/schema_org/models.py` — enumerations and records -/

/-- `PropertyType(str, Enum)` from `models.py`. -/
inductive PropertyType where
  | datatype
  | entity
  | enumeration
deriving DecidableEq, Repr

/-- The `.value` string of a `PropertyType` member. -/
def propertyTypeValue : PropertyType → String
  | .datatype => "datatype"
  | .entity => "entity"
  | .enumeration => "enumeration"

/-- `RelationshipType(str, Enum)` from `models.py`. -/
inductive RelationshipType where
  | one_to_one
  | one_to_many
  | many_to_one
  | many_to_many
deriving DecidableEq, Repr

/-- The `.value` string of a `RelationshipType` member.  Because the
enumeration derives from `str`, Python's `==` between a member and a
plain string compares this value with the string. -/
def relationshipTypeValue : RelationshipType → String
  | .one_to_one => "one_to_one"
  | .one_to_many => "one_to_many"
  | .many_to_one => "many_to_one"
  | .many_to_many => "many_to_many"

/-- `SchemaProperty` (`models.py`).  `required`/`multiple` are declared
`Optional[bool] = False` in the source and only ever hold booleans, so
they are embedded as `Bool`.  The two free-form bags `type_info` and
`field_metadata` are association lists; `none` models Python `None`. -/
structure SchemaProperty where
  name : String
  description : String
  expected_types : List String := []
  domain_includes : List String := []
  range_includes : List String := []
  required : Bool := false
  multiple : Bool := false
  type_info : Option (List (String × MetaValue)) := none
  field_metadata : Option (List (String × MetaValue)) := none
deriving DecidableEq, Repr

/-- The set literal `schema_datatypes` inside
`SchemaProperty.property_type`. -/
def schemaDatatypes : List String :=
  ["Text", "Number", "Integer", "Float", "Boolean",
   "Date", "DateTime", "Time", "URL", "Duration"]

/-- `SchemaProperty.property_type`: when a non-empty `type_info` dict is
attached (Python truthiness) the stored `"property_type"` value is
returned as-is (possibly `None` when the key is absent — hence
`Option String`, holding the member's `.value` string); otherwise any
expected type outside `schemaDatatypes` makes the property an entity
reference. -/
def propertyTypeOf (p : SchemaProperty) : Option String :=
  match p.type_info with
  | some ti =>
    if ti.isEmpty then
      if p.expected_types.any (fun t => !schemaDatatypes.contains t) then
        some (propertyTypeValue .entity)
      else some (propertyTypeValue .datatype)
    else
      match jget ti "property_type" with
      | some (.s v) => some v
      | _ => none
  | none =>
    if p.expected_types.any (fun t => !schemaDatatypes.contains t) then
      some (propertyTypeValue .entity)
    else some (propertyTypeValue .datatype)

/-- `SchemaProperty.is_relationship`: `property_type == PropertyType.ENTITY`
(a `str` enum, so the comparison is against the value `"entity"`). -/
def isRelationshipProp (p : SchemaProperty) : Bool :=
  propertyTypeOf p == some "entity"

/-- `RelationshipInfo` (`models.py`). -/
structure RelationshipInfo where
  type : RelationshipType
  target_entity : String
  source_entity : String
  property_name : Option String := none
  name : Option String := none
  foreign_key : Option String := none
  association_table : Option String := none
  back_populates : Option String := none
  metadata : Option (List (String × MetaValue)) := none
deriving DecidableEq, Repr

/-- `RelationshipInfo.is_one_to_one`: the source compares
`self.type == "one-to-one"` — a hyphenated literal — against the
enumeration whose value is the underscored `"one_to_one"`. -/
def isOneToOne (r : RelationshipInfo) : Bool :=
  relationshipTypeValue r.type == "one-to-one"

/-- `RelationshipInfo.is_one_to_many` (`self.type == "one-to-many"`). -/
def isOneToMany (r : RelationshipInfo) : Bool :=
  relationshipTypeValue r.type == "one-to-many"

/-- `RelationshipInfo.is_many_to_one` (`self.type == "many-to-one"`). -/
def isManyToOne (r : RelationshipInfo) : Bool :=
  relationshipTypeValue r.type == "many-to-one"

/-- `RelationshipInfo.is_many_to_many` (`self.type == "many-to-many"`). -/
def isManyToMany (r : RelationshipInfo) : Bool :=
  relationshipTypeValue r.type == "many-to-many"

/-- `RelationshipInfo.is_self_referencing`:
`self.type == "self-referencing" or self.source_entity == self.target_entity`. -/
def isSelfReferencing (r : RelationshipInfo) : Bool :=
  relationshipTypeValue r.type == "self-referencing"
    || r.source_entity == r.target_entity

/-- `ValidationRule` (`models.py`): a type tag, a parameter dict,
an optional validator-annotation name and an optional message. -/
structure ValidationRule where
  type : String
  params : List (String × MetaValue) := []
  validator : Option String := none
  error_message : Option String := none
deriving DecidableEq, Repr

/-! ## `api_forge/schema_org/relationship_resolver.py` -/

/-- `RelationshipResolver.COLLECTION_INDICATORS`. -/
def collectionIndicators : List String := ["s", "list", "collection", "set"]

/-- `RelationshipResolver.ONE_TO_ONE_INDICATORS`. -/
def oneToOneIndicators : List String := ["primary", "main", "current", "active"]

/-- `RelationshipResolver._determine_relationship_type`: the cardinality
heuristic.  `targetEntities` is kept to mirror the source signature; the
source never reads it. -/
def determineRelationshipType (propertyName : String)
    (targetEntities : List String) (multiple : Bool) : RelationshipType :=
  let lowerName := strLower propertyName
  let _ := targetEntities
  if multiple then .many_to_many
  else if strEndsWith propertyName "s" || strEndsWith propertyName "es" then .many_to_many
  else if collectionIndicators.any (fun ind => strContains lowerName ind) then .many_to_many
  else if oneToOneIndicators.any (fun ind => strContains lowerName ind) then .one_to_one
  else .many_to_one

/-- The target filter at the top of `RelationshipResolver.analyze_property`:
`[t for t in property.expected_types if t not in ["Thing", "DataType"]]`. -/
def relationshipTargets (p : SchemaProperty) : List String :=
  p.expected_types.filter (fun t => t ≠ "Thing" && t ≠ "DataType")

/-- Specification-side restatement of the claimed cardinality
precedence, written from the claim's own words: explicit multiple-values
flag → many-to-many; else name ending in "s"/"es" → many-to-many; else
lower-cased name containing "s"/"list"/"collection"/"set" →
many-to-many; else lower-cased name containing
"primary"/"main"/"current"/"active" → one-to-one; else many-to-one. -/
def cardinalitySpec (name : String) (multiple : Bool) : RelationshipType :=
  if multiple then .many_to_many
  else if strEndsWith name "s" || strEndsWith name "es" then .many_to_many
  else if ["s", "list", "collection", "set"].any
      (fun tok => strContains (strLower name) tok) then .many_to_many
  else if ["primary", "main", "current", "active"].any
      (fun tok => strContains (strLower name) tok) then .one_to_one
  else .many_to_one

/-! ## Claim theorems (first group) -/

/-- **C3.** For every relationship property (non-primitive declared
type, non-empty target list after filtering out "Thing"/"DataType"),
the resolver's cardinality follows the claimed precedence
(`cardinalitySpec`); in particular "friends" yields many-to-many,
"primaryContact" one-to-one, and "employer" many-to-one. -/
theorem relationship_cardinality_precedence :
    (∀ p : SchemaProperty, isRelationshipProp p = true →
      relationshipTargets p ≠ [] →
      determineRelationshipType p.name (relationshipTargets p) p.multiple
        = cardinalitySpec p.name p.multiple)
    ∧ determineRelationshipType "friends" ["Person"] false = .many_to_many
    ∧ determineRelationshipType "primaryContact" ["ContactPoint"] false = .one_to_one
    ∧ determineRelationshipType "employer" ["Organization"] false = .many_to_one := by
  refine ⟨fun p _ _ => rfl, ?_, ?_, ?_⟩ <;> decide

/-- Witness for C3: a concrete relationship property ("friends",
declared type "Person") satisfies the hypotheses, and the cardinality
matches the spec chain there. -/
theorem relationship_cardinality_precedence_witness :
    determineRelationshipType "friends"
        (relationshipTargets ⟨"friends", "", ["Person"], [], [], false, false, none, none⟩)
        false
      = cardinalitySpec "friends" false :=
  relationship_cardinality_precedence.1
    ⟨"friends", "", ["Person"], [], [], false, false, none, none⟩
    (by decide) (by decide)

/-! ## `SchemaEntity` and `EntityAnalysis` (`models.py`, continued) -/

/-- `SchemaEntity` (`models.py`).  The source declares
`name: Optional[str] = None`, but every accessor (`table_name`, …)
immediately calls `self.name.lower()`, which raises on `None`; the
embedding therefore covers the entities that actually flow through the
pipeline, all of which carry a name. -/
structure SchemaEntity where
  name : String
  url : Option String := none
  description : String
  properties : List (String × SchemaProperty) := []
  parent_types : List String := []
  sub_types : List String := []
  relationships : List RelationshipInfo := []
  validation_rules : List (String × List ValidationRule) := []
  metadata : Option (List (String × MetaValue)) := none
deriving DecidableEq, Repr

/-- `SchemaEntity.table_name`:

```python
if self.metadata:
    return self.metadata.get("table_name", self.name.lower() + "s")
return self.name.lower()
```

Python truthiness makes an empty metadata dict take the second branch.
The stored override is returned as-is (it may be any value, hence
`MetaValue`); both fallbacks are strings. -/
def tableName (e : SchemaEntity) : MetaValue :=
  match e.metadata with
  | some m =>
    if m.isEmpty then .s (strLower e.name)
    else jgetD m "table_name" (.s (strLower e.name ++ "s"))
  | none => .s (strLower e.name)

/-- `EntityAnalysis` (`models.py`): one entity plus AI-derived hints.
`computed_fields` / `recommended_defaults` are dicts;
`business_rules` is a list of dicts.  The timestamp is carried opaquely
as an optional string (it is `None` in every path the claims touch). -/
structure EntityAnalysis where
  entity : SchemaEntity
  suggested_indexes : List String := []
  unique_fields : List String := []
  immutable_fields : List String := []
  computed_fields : List (String × String) := []
  business_rules : List (List (String × MetaValue)) := []
  security_considerations : List String := []
  recommended_defaults : List (String × MetaValue) := []
  ai_enhanced : Bool := false
  analysis_timestamp : Option String := none
deriving DecidableEq, Repr

/-! ## Claim theorems: table name (C7) and relationship flags (C8) -/

/-- A concrete entity whose metadata bag is non-empty but carries no
table-name override: `audit` is set, `table_name` is not. -/
def entityWithAuditOnly : SchemaEntity :=
  { name := "Person"
    description := "A person"
    metadata := some [("audit", .b true)] }

/-- **C7 counterexample.** The claim says that without an override the
table name is the lower-cased entity name; but for an entity whose
non-empty metadata bag lacks the override, the code returns the
lower-cased name with "s" appended: "persons", not "person". -/
theorem table_name_counterexample :
    tableName entityWithAuditOnly = .s "persons"
      ∧ MetaValue.s "persons" ≠ .s "person" := by
  constructor
  · decide
  · decide

/-- **C7 (amended).** The derived table name equals the metadata bag's
table-name override when one is present; it equals the lower-cased
entity name when the metadata bag is absent or empty; and it equals the
lower-cased name with "s" appended when a non-empty metadata bag has no
override. -/
theorem table_name_amended :
    ∀ e : SchemaEntity,
      (∀ m v, e.metadata = some m → m ≠ [] → jget m "table_name" = some v →
        tableName e = v)
      ∧ ((e.metadata = none ∨ e.metadata = some []) →
        tableName e = .s (strLower e.name))
      ∧ (∀ m, e.metadata = some m → m ≠ [] → jget m "table_name" = none →
        tableName e = .s (strLower e.name ++ "s")) := by
  intro e
  refine ⟨?_, ?_, ?_⟩
  · intro m v hm hne hv
    simp [tableName, hm, hne, jgetD, hv]
  · rintro (hm | hm) <;> simp [tableName, hm]
  · intro m hm hne hv
    simp [tableName, hm, hne, jgetD, hv]

/-- Witness for C7 (amended): all three cases evaluated at concrete
entities (with an override, with no metadata, with a bare audit flag). -/
theorem table_name_amended_witness :
    tableName { entityWithAuditOnly with
        metadata := some [("table_name", .s "people")] } = .s "people"
      ∧ tableName { entityWithAuditOnly with metadata := none } = .s "person"
      ∧ tableName entityWithAuditOnly = .s "persons" :=
  ⟨(table_name_amended _).1 [("table_name", .s "people")] (.s "people")
      rfl (by decide) (by decide),
   (table_name_amended _).2.1 (Or.inl rfl),
   (table_name_amended _).2.2 [("audit", .b true)] rfl (by decide) (by decide)⟩

/-- A relationship of each declared kind, as the resolver would intend
to produce them. -/
def relOfType (t : RelationshipType) : RelationshipInfo :=
  { type := t
    target_entity := "Organization"
    source_entity := "Person"
    property_name := some "employer" }

/-- **C8.** The claim — each kind flag is true exactly when `type` holds
the corresponding `RelationshipType` value — is what the properties'
own docstrings promise, but the code compares the enumeration's
underscored value ("one_to_one", …) against hyphenated literals
("one-to-one", …), so every kind flag is false even on a relationship
of exactly that kind.  The self-reference flag does hold (its second
disjunct compares source and target).  This theorem evaluates the code
at the failing inputs. -/
theorem relationship_kind_flags_always_false :
    isOneToOne (relOfType .one_to_one) = false
    ∧ isOneToMany (relOfType .one_to_many) = false
    ∧ isManyToOne (relOfType .many_to_one) = false
    ∧ isManyToMany (relOfType .many_to_many) = false
    ∧ isSelfReferencing { relOfType .one_to_one with target_entity := "Person" } = true
    ∧ isSelfReferencing (relOfType .one_to_one) = false := by
  decide

/-! ## `api_forge/schema_org/type_mapper.py` — classification predicates -/

/-- `TypeMapper.is_numeric_type`:
`schema_type in ["Integer", "Float", "Number"]`. -/
def isNumericType (t : String) : Bool :=
  ["Integer", "Float", "Number"].contains t

/-- `TypeMapper.is_datetime_type`:
`schema_type in ["Date", "DateTime", "Time", "Duration"]`. -/
def isDatetimeType (t : String) : Bool :=
  ["Date", "DateTime", "Time", "Duration"].contains t

/-- `TypeMapper.is_text_type`:
`schema_type in ["Text", "URL", "DataType"]`. -/
def isTextType (t : String) : Bool :=
  ["Text", "URL", "DataType"].contains t

/-! ## `api_forge/schema_org/validation_extractor.py` -/

/-- `ValidationExtractor._extract_string_validations`.  The phone
pattern's regex braces are written with their escapes. -/
def extractStringValidations (p : SchemaProperty) : List ValidationRule :=
  if ["email", "emailaddress"].any (fun pat => strContains (strLower p.name) pat) then
    [{ type := "email_validation", validator := some "EmailStr",
       error_message := some "Invalid email format" }]
  else if ["phone", "telephone", "mobile"].any (fun pat => strContains (strLower p.name) pat) then
    [{ type := "phone_validation",
       params := [("pattern", .s "^\\+?[1-9]\\d\x7b1,14\x7d$")],
       error_message := some "Invalid phone number format" }]
  else if ["description", "text", "content", "bio"].any
      (fun pat => strContains (strLower p.name) pat) then
    [{ type := "string_length",
       params := [("min_length", .i 0), ("max_length", .i 5000)],
       error_message := some "Text too long (max 5000 characters)" }]
  else
    [{ type := "string_length",
       params := [("min_length", .i 0), ("max_length", .i 255)],
       error_message := some (p.name ++ " too long (max 255 characters)") }]

/-- `ValidationExtractor._extract_numeric_validations`. -/
def extractNumericValidations (p : SchemaProperty) : List ValidationRule :=
  if strContains (strLower p.name) "age" then
    [{ type := "numeric_range", params := [("ge", .i 0), ("le", .i 150)],
       error_message := some "Age must be between 0 and 150" }]
  else if strContains (strLower p.name) "rating" then
    [{ type := "numeric_range", params := [("ge", .i 0), ("le", .i 5)],
       error_message := some "Rating must be between 0 and 5" }]
  else if strContains (strLower p.name) "percent"
      || strContains (strLower p.name) "percentage" then
    [{ type := "numeric_range", params := [("ge", .i 0), ("le", .i 100)],
       error_message := some "Percentage must be between 0 and 100" }]
  else if ["price", "amount", "cost", "salary"].any
      (fun pat => strContains (strLower p.name) pat) then
    [{ type := "numeric_range", params := [("ge", .i 0)],
       error_message := some (p.name ++ " must be positive") }]
  else if strContains (strLower p.name) "quantity"
      || strContains (strLower p.name) "count" then
    [{ type := "numeric_range", params := [("ge", .i 0)],
       error_message := some (p.name ++ " must be non-negative") }]
  else []

/-- `ValidationExtractor._extract_datetime_validations`. -/
def extractDatetimeValidations (p : SchemaProperty) : List ValidationRule :=
  if strContains (strLower p.name) "birth" then
    [{ type := "date_past",
       error_message := some "Birth date must be in the past" }]
  else if ["expir", "end", "deadline"].any
      (fun pat => strContains (strLower p.name) pat) then
    [{ type := "date_future",
       error_message := some (p.name ++ " must be in the future") }]
  else if strContains (strLower p.name) "start"
      || strContains (strLower p.name) "begin" then
    [{ type := "date_validation", error_message := some "Invalid start date" }]
  else []

/-- `ValidationExtractor._extract_semantic_validations` (regex braces
written with their escapes). -/
def extractSemanticValidations (p : SchemaProperty) : List ValidationRule :=
  if strContains (strLower p.name) "username" then
    [{ type := "pattern",
       params := [("pattern", .s "^[a-zA-Z0-9_-]\x7b3,30\x7d$")],
       error_message := some "Username must be 3-30 characters (letters, numbers, _, -)" }]
  else if strContains (strLower p.name) "password" then
    [{ type := "string_length",
       params := [("min_length", .i 8), ("max_length", .i 100)],
       error_message := some "Password must be at least 8 characters" }]
  else if ["postal", "zip", "zipcode"].any (fun pat => strContains (strLower p.name) pat) then
    [{ type := "pattern",
       params := [("pattern", .s "^\\d\x7b5\x7d(-\\d\x7b4\x7d)?$")],
       error_message := some "Invalid postal code format" }]
  else if ["taxid", "ssn", "socialsecurity"].any
      (fun pat => strContains (strLower p.name) pat) then
    [{ type := "pattern",
       params := [("pattern", .s "^\\d\x7b3\x7d-\\d\x7b2\x7d-\\d\x7b4\x7d$")],
       error_message := some "Invalid tax ID format" }]
  else if strContains (strLower p.name) "isbn" then
    [{ type := "pattern",
       params := [("pattern", .s "^(?:\\d\x7b9\x7dX|\\d\x7b10\x7d|\\d\x7b13\x7d)$")],
       error_message := some "Invalid ISBN format" }]
  else []

/-- The "required" rule added at the top of
`ValidationExtractor.extract_validations`. -/
def requiredRulesOf (p : SchemaProperty) : List ValidationRule :=
  if p.required then
    [{ type := "required", error_message := some (p.name ++ " is required") }]
  else []

/-- `ValidationExtractor.extract_validations`: required rule, then the
type-classified dispatch on the primary (first) expected type plus the
URL rule, then the name-semantics pass. -/
def extractValidations (p : SchemaProperty) : List ValidationRule :=
  requiredRulesOf p
    ++ (match p.expected_types with
        | [] => []
        | primary :: _ =>
          (if isTextType primary then extractStringValidations p
           else if isNumericType primary then extractNumericValidations p
           else if isDatetimeType primary then extractDatetimeValidations p
           else [])
          ++ (if primary == "URL" then
                [{ type := "url_validation", validator := some "AnyHttpUrl",
                   error_message := some "Invalid URL format" }]
              else []))
    ++ extractSemanticValidations p

/-! ## Claim C4: validation extraction for known name patterns -/

/-- The inclusive bounds carried by a rule's parameter dict. -/
def boundsOf (r : ValidationRule) : Option MetaValue × Option MetaValue :=
  (jget r.params "ge", jget r.params "le")

/-- Recognizer for numeric-range rules. -/
def isNumericRangeRule (r : ValidationRule) : Bool :=
  r.type == "numeric_range"

/-- Specification-side restatement of the claimed numeric bounds,
written from the claim's words: 0–150 when the lower-cased name
contains "age", 0–5 for "rating", 0–100 for "percent"/"percentage",
≥ 0 for a money token ("price"/"amount"/"cost"/"salary") or a quantity
token ("quantity"/"count"), and nothing otherwise. -/
def numericBoundsSpec (name : String) : List (Option MetaValue × Option MetaValue) :=
  if strContains (strLower name) "age" then [(some (.i 0), some (.i 150))]
  else if strContains (strLower name) "rating" then [(some (.i 0), some (.i 5))]
  else if strContains (strLower name) "percent"
      || strContains (strLower name) "percentage" then [(some (.i 0), some (.i 100))]
  else if ["price", "amount", "cost", "salary"].any
      (fun pat => strContains (strLower name) pat) then [(some (.i 0), none)]
  else if strContains (strLower name) "quantity"
      || strContains (strLower name) "count" then [(some (.i 0), none)]
  else []

theorem filter_nr_requiredRulesOf (p : SchemaProperty) :
    (requiredRulesOf p).filter isNumericRangeRule = [] := by
  unfold requiredRulesOf; split <;> rfl

theorem filter_nr_semantic (p : SchemaProperty) :
    (extractSemanticValidations p).filter isNumericRangeRule = [] := by
  unfold extractSemanticValidations; split_ifs <;> rfl

theorem filter_nr_numeric (p : SchemaProperty) :
    (extractNumericValidations p).filter isNumericRangeRule
      = extractNumericValidations p := by
  unfold extractNumericValidations; split_ifs <;> rfl

theorem numeric_bounds_eq_spec (p : SchemaProperty) :
    (extractNumericValidations p).map boundsOf = numericBoundsSpec p.name := by
  unfold extractNumericValidations numericBoundsSpec; split_ifs <;> rfl

/-- The concrete properties of the claim's examples. -/
def agePropExample : SchemaProperty :=
  { name := "age", description := "", expected_types := ["Integer"] }

def ratingPropExample : SchemaProperty :=
  { name := "rating", description := "", expected_types := ["Number"] }

def birthDatePropExample : SchemaProperty :=
  { name := "birthDate", description := "", expected_types := ["Date"] }

/-- **C4.** For every property whose primary declared type is
numeric-classified, the numeric-range rules the extractor emits carry
exactly the claimed bounds (`numericBoundsSpec`); for every
temporal-classified property whose name contains "birth", a
"date_past" rule is emitted; and the concrete examples "age",
"rating" and "birthDate" produce the 0–150, 0–5 and date-past rules. -/
theorem validation_extraction_rules :
    (∀ (p : SchemaProperty) (t : String) (ts : List String),
      p.expected_types = t :: ts → isNumericType t = true →
      ((extractValidations p).filter isNumericRangeRule).map boundsOf
        = numericBoundsSpec p.name)
    ∧ (∀ (p : SchemaProperty) (t : String) (ts : List String),
      p.expected_types = t :: ts → isDatetimeType t = true →
      strContains (strLower p.name) "birth" = true →
      ∃ r ∈ extractValidations p, r.type = "date_past")
    ∧ ({ type := "numeric_range", params := [("ge", .i 0), ("le", .i 150)],
         error_message := some "Age must be between 0 and 150" } : ValidationRule)
        ∈ extractValidations agePropExample
    ∧ ({ type := "numeric_range", params := [("ge", .i 0), ("le", .i 5)],
         error_message := some "Rating must be between 0 and 5" } : ValidationRule)
        ∈ extractValidations ratingPropExample
    ∧ ({ type := "date_past",
         error_message := some "Birth date must be in the past" } : ValidationRule)
        ∈ extractValidations birthDatePropExample := by
  refine ⟨?_, ?_, ?_, ?_, ?_⟩
  · intro p t ts hexp hnum
    have ht : t = "Integer" ∨ t = "Float" ∨ t = "Number" := by
      simpa [isNumericType] using hnum
    rcases ht with rfl | rfl | rfl <;>
      simp +decide [extractValidations, hexp, List.filter_append,
        filter_nr_requiredRulesOf, filter_nr_semantic, filter_nr_numeric,
        numeric_bounds_eq_spec]
  · intro p t ts hexp hdt hbirth
    have ht : t = "Date" ∨ t = "DateTime" ∨ t = "Time" ∨ t = "Duration" := by
      simpa [isDatetimeType] using hdt
    refine ⟨{ type := "date_past",
              error_message := some "Birth date must be in the past" }, ?_, rfl⟩
    rcases ht with rfl | rfl | rfl | rfl <;>
      simp +decide [extractValidations, hexp, extractDatetimeValidations, hbirth]
  · decide
  · decide
  · decide

/-- Witness for C4: the general parts applied at the concrete "age" and
"birthDate" properties, discharging the classification hypotheses
there. -/
theorem validation_extraction_rules_witness :
    ((extractValidations agePropExample).filter isNumericRangeRule).map boundsOf
        = numericBoundsSpec "age"
      ∧ ∃ r ∈ extractValidations birthDatePropExample, r.type = "date_past" :=
  ⟨validation_extraction_rules.1 agePropExample "Integer" [] rfl (by decide),
   validation_extraction_rules.2.1 birthDatePropExample "Date" [] rfl
     (by decide) (by decide)⟩

/-! ## `api_forge/schema_org/type_mapper.py` — resolution -/

/-- `TypeInfo` (`models.py`): resolved Python / SQLAlchemy / Pydantic
type strings plus the relationship and optionality flags. -/
structure TypeInfo where
  python_type : String
  sql_type : String
  pydantic_annotation : String
  is_relationship : Bool := false
  is_optional : Bool := true
deriving DecidableEq, Repr

/-- `TypeMapper.TYPE_MAP`: Schema.org type →
(Python type, SQLAlchemy type, Pydantic annotation). -/
def typeMap : List (String × String × String × String) :=
  [("Text", "str", "sa.String(255)", "str"),
   ("URL", "str", "sa.String(500)", "AnyHttpUrl"),
   ("Integer", "int", "sa.Integer", "int"),
   ("Float", "float", "sa.Float", "float"),
   ("Number", "float", "sa.Numeric(10, 2)", "Decimal"),
   ("Boolean", "bool", "sa.Boolean", "bool"),
   ("Date", "date", "sa.Date", "date"),
   ("DateTime", "datetime", "sa.DateTime", "datetime"),
   ("Time", "time", "sa.Time", "time"),
   ("Duration", "timedelta", "sa.Interval", "timedelta"),
   ("DataType", "str", "sa.String(255)", "str"),
   ("Thing", "str", "sa.String(255)", "str")]

/-- `primary_type in TYPE_MAP` / `TYPE_MAP[primary_type]`. -/
def typeMapLookup (t : String) : Option (String × String × String) :=
  typeMap.lookup t

/-- `TypeMapper.EMAIL_PATTERNS`. -/
def emailPatterns : List String := ["email", "emailaddress", "contactemail"]

/-- `TypeMapper.PHONE_PATTERNS`. -/
def phonePatterns : List String := ["phone", "telephone", "fax", "mobile"]

/-- `TypeMapper.TEXT_FIELDS`. -/
def textFields : List String :=
  ["description", "abstract", "text", "content", "body", "bio", "about"]

/-- `TypeMapper._apply_special_handling`: name-based overrides of the
base type triple. -/
def applySpecialHandling (propertyName : String)
    (base : String × String × String) : String × String × String :=
  if emailPatterns.any (fun pat => strContains (strLower propertyName) pat) then
    ("str", "sa.String(255)", "EmailStr")
  else if phonePatterns.any (fun pat => strContains (strLower propertyName) pat) then
    ("str", "sa.String(20)", "str")
  else if textFields.any (fun pat => strContains (strLower propertyName) pat) then
    ("str", "sa.Text", "str")
  else if strContains (strLower propertyName) "url"
      || strContains (strLower propertyName) "link"
      || strContains (strLower propertyName) "website" then
    ("str", "sa.String(500)", "AnyHttpUrl")
  else base

/-- `TypeMapper.resolve_type`.  The primary type is the first expected
type, defaulting to `"Text"` when none is declared (the list is
non-empty in the `headD` call by construction, so the default there is
never used). -/
def resolveType (p : SchemaProperty) (allowMultiple : Bool := false) : TypeInfo :=
  let expectedTypes := if p.expected_types.isEmpty then ["Text"] else p.expected_types
  let primary := expectedTypes.headD "Text"
  match typeMapLookup primary with
  | some base0 =>
    let base := applySpecialHandling p.name base0
    if allowMultiple || p.multiple then
      TypeInfo.mk ("List[" ++ base.1 ++ "]") ("sa.ARRAY(" ++ base.2.1 ++ ")")
        ("List[" ++ base.2.2 ++ "]") false (!p.required)
    else
      TypeInfo.mk base.1 base.2.1 base.2.2 false (!p.required)
  | none =>
    TypeInfo.mk primary "sa.Integer" ("Optional['" ++ primary ++ "Schema']")
      true (!p.required)

/-- The claim's concrete input: a property named "email" with declared
type "Text". -/
def emailPropExample : SchemaProperty :=
  { name := "email", description := "", expected_types := ["Text"] }

/-- **C9.** Type resolution is deterministic: the result of
`resolve_type` is a function of the property's name, declared types,
required and multiple flags alone (the mapper holds no state — the
embedding is a pure function, and no other field of the property is
read); and a property named "email" with declared type "Text" always
resolves to the string type with the `EmailStr` annotation. -/
theorem type_resolution_deterministic :
    (∀ (p q : SchemaProperty) (am : Bool),
      p.name = q.name → p.expected_types = q.expected_types →
      p.required = q.required → p.multiple = q.multiple →
      resolveType p am = resolveType q am)
    ∧ (∀ p : SchemaProperty, p.name = "email" → p.expected_types = ["Text"] →
      p.multiple = false →
      resolveType p false = TypeInfo.mk "str" "sa.String(255)" "EmailStr" false (!p.required)) := by
  constructor
  · intro p q am hname htypes hreq hmul
    simp only [resolveType, hname, htypes, hreq, hmul]
  · intro p hname htypes hmul
    simp +decide [resolveType, hname, htypes, hmul, typeMapLookup,
      applySpecialHandling, typeMap, List.lookup]

/-- Witness for C9: both parts applied at the concrete "email"
property. -/
theorem type_resolution_deterministic_witness :
    resolveType emailPropExample false = resolveType emailPropExample false
      ∧ resolveType emailPropExample false
        = TypeInfo.mk "str" "sa.String(255)" "EmailStr" false true :=
  ⟨type_resolution_deterministic.1 emailPropExample emailPropExample false
      rfl rfl rfl rfl,
   type_resolution_deterministic.2 emailPropExample rfl rfl rfl⟩

/-! ## `api_forge/ai/agents.py` — `SchemaAnalystAgent.analyze` -/

/-- The parsed structured response of the AI call
(`ai_client.generate_structured`), as `analyze` reads it with
`dict.get(key, default)`: `none` models an absent key.  A response
whose values do not fit these shapes makes the `EntityAnalysis`
construction raise — inside the same `try`, so it lands in the same
fallback as any other failure and is covered by the `Except.error`
input below. -/
structure AnalysisResponse where
  indexed_fields : Option (List String) := none
  unique_fields : Option (List String) := none
  immutable_fields : Option (List String) := none
  business_rules : Option (List (List (String × MetaValue))) := none
  security_notes : Option (List String) := none
  default_values : Option (List (String × MetaValue)) := none
deriving DecidableEq, Repr

/-- The bare `EntityAnalysis(entity=entity)` built in the agent's
`except` branch: every hint collection defaults to empty,
`ai_enhanced` to `False`, the timestamp to `None`. -/
def bareAnalysis (entity : SchemaEntity) : EntityAnalysis :=
  { entity := entity }

/-- `SchemaAnalystAgent.analyze`.  Everything that can fail — prompt
construction, the provider call, response parsing, and the
`EntityAnalysis` construction itself — happens inside one `try`; the
embedding therefore takes the outcome of that fallible region as an
`Except` value (`Except.error` carries the exception's message).  On
success the response fields are read with `.get(key, default)`;
`ai_enhanced` is left at its default (`False`) even then, and
`computed_fields` is set to the empty dict. -/
def analyze (entity : SchemaEntity)
    (aiResult : Except String AnalysisResponse) : EntityAnalysis :=
  match aiResult with
  | .ok d =>
    { entity := entity
      suggested_indexes := d.indexed_fields.getD []
      unique_fields := d.unique_fields.getD []
      immutable_fields := d.immutable_fields.getD []
      computed_fields := []
      business_rules := d.business_rules.getD []
      security_considerations := d.security_notes.getD []
      recommended_defaults := d.default_values.getD [] }
  | .error _ => bareAnalysis entity

/-- **C1.** For every entity and every failure of the AI
entity-analysis call (network, provider, or parse error — all
modelled by the `Except.error` outcome of the `try` region), `analyze`
returns the bare `EntityAnalysis` wrapping the input entity: every
hint collection is empty and `ai_enhanced` is false.  The exception is
never propagated: `analyze` is total and returns an `EntityAnalysis`,
not an error. -/
theorem analyze_failure_returns_bare_analysis :
    ∀ (entity : SchemaEntity) (msg : String),
      analyze entity (.error msg) = bareAnalysis entity
      ∧ (analyze entity (.error msg)).entity = entity
      ∧ (analyze entity (.error msg)).suggested_indexes = []
      ∧ (analyze entity (.error msg)).unique_fields = []
      ∧ (analyze entity (.error msg)).immutable_fields = []
      ∧ (analyze entity (.error msg)).computed_fields = []
      ∧ (analyze entity (.error msg)).business_rules = []
      ∧ (analyze entity (.error msg)).security_considerations = []
      ∧ (analyze entity (.error msg)).recommended_defaults = []
      ∧ (analyze entity (.error msg)).ai_enhanced = false := by
  intro entity msg
  refine ⟨rfl, rfl, rfl, rfl, rfl, rfl, rfl, rfl, rfl, rfl⟩

/-! ## `api_forge/json_metadata/loader.py` — metadata model -/

/-- `FieldMetadata` (`loader.py`).  The foreign-key descriptor is a
dict of strings (`references` / `on_delete`); `none` models Python
`None`, `some []` the (falsy) empty dict.  The source field named
`private` is embedded as `priv` (`private` is a Lean keyword). -/
structure FieldMetadata where
  name : String
  type : String
  primary : Bool := false
  auto_increment : Bool := false
  nullable : Bool := true
  unique : Bool := false
  default : Option MetaValue := none
  max_length : Option Int := none
  precision : Option Int := none
  scale : Option Int := none
  format : Option String := none
  description : Option String := none
  priv : Bool := false
  enum : Option (List String) := none
  foreign_key : Option (List (String × String)) := none
  validation : Option (List (String × MetaValue)) := none
  frontend : Option (List (String × MetaValue)) := none
deriving DecidableEq, Repr

/-- `RelationshipMetadata` (`loader.py`). -/
structure RelationshipMetadata where
  type : String
  target : String
  local_field : Option String := none
  remote_field : Option String := none
  via : Option String := none
  name : String
  eager_load : Bool := false
  cascade : Option String := none
  representation_in_ui : Option String := none
deriving DecidableEq, Repr

/-- `EndpointMetadata` (`loader.py`). -/
structure EndpointMetadata where
  base_path : String
  crud : Bool := true
  search : Option (List (String × MetaValue)) := none
  bulk : Option (List (String × MetaValue)) := none
  extra : Option (List (String × MetaValue)) := none
  read : Option (List (String × MetaValue)) := none
  pdf_export : Bool := false
  reporting : Bool := false
  upload : Option (List (String × MetaValue)) := none
  download : Option (List (String × MetaValue)) := none
deriving DecidableEq, Repr

/-- `EntityMetadata` (`loader.py`). -/
structure EntityMetadata where
  name : String
  table_name : String
  description : String
  audit : Bool := false
  soft_delete : Bool := false
  composite_primary_key : Option (List String) := none
  indexes : Option (List (List (String × MetaValue))) := none
  permissions : Option (List (String × List String)) := none
  fields : List FieldMetadata
  relationships : List RelationshipMetadata := []
  endpoints : EndpointMetadata
  seed : Option (List (List (String × MetaValue))) := none
deriving DecidableEq, Repr

/-- `AppMetadata` (`loader.py`). -/
structure AppMetadata where
  name : String
  description : String
  version : String
  locale : String := "en-US"
  timezone : String := "UTC"
  backend : List (String × MetaValue)
  frontend : Option (List (String × MetaValue)) := none
deriving DecidableEq, Repr

/-- `JSONMetadata` (`loader.py`): the loaded document.
`validate_foreign_keys` is specified over a loaded document, so the
"no metadata loaded" early return of the loader object does not arise
here. -/
structure JSONMetadata where
  app : AppMetadata
  entities : List EntityMetadata
  relationships_global : Option (List (String × MetaValue)) := none
  generation_options : Option (List (String × MetaValue)) := none
  ui_hints : Option (List (String × MetaValue)) := none
  dto_policies : Option (List (String × MetaValue)) := none
  client_behaviors : Option (List (String × MetaValue)) := none
  examples : Option (List (String × MetaValue)) := none
  notes : Option (List (String × MetaValue)) := none
deriving DecidableEq, Repr

/-! ## `JSONMetadataLoader.validate_foreign_keys` -/

/-- Helper for `split('.', 1)` on character lists: the part before the
first dot and everything after it, or `none` when there is no dot. -/
def splitFirstDotAux : List Char → Option (List Char × List Char)
  | [] => none
  | c :: t =>
    if c = '.' then some ([], t)
    else
      match splitFirstDotAux t with
      | some (pre, post) => some (c :: pre, post)
      | none => none

/-- Python `fk_ref.split('.', 1)` unpacked into two parts.  The caller
guards with `'.' in fk_ref`, so the no-dot fallback is unreachable. -/
def splitFirstDot (s : String) : String × String :=
  match splitFirstDotAux s.data with
  | some (pre, post) => (⟨pre⟩, ⟨post⟩)
  | none => (s, "")

/-- The dict comprehension `{e.name: e for e in entities}` followed by
lookup: with duplicate names the later entity wins. -/
def findEntity (ents : List EntityMetadata) (n : String) : Option EntityMetadata :=
  ents.reverse.find? (fun e => e.name == n)

/-- Python list membership `x in l` for strings. -/
def nameListHas : List String → String → Bool
  | [], _ => false
  | n :: t, key => n == key || nameListHas t key

/-- The loop body of `validate_foreign_keys` for one field: zero or one
human-readable error entry.  `if not field.foreign_key: continue`
skips both `None` and the falsy empty dict. -/
def fkFieldErrors (ents : List EntityMetadata) (entityName : String)
    (f : FieldMetadata) : List String :=
  match f.foreign_key with
  | none => []
  | some fk =>
    if fk.isEmpty then []
    else
      let fkRef := (fk.lookup "references").getD ""
      if !strContains fkRef "." then
        [entityName ++ "." ++ f.name ++ ": Invalid foreign key format '"
          ++ fkRef ++ "'"]
      else
        match findEntity ents (splitFirstDot fkRef).1 with
        | none =>
          [entityName ++ "." ++ f.name
            ++ ": Foreign key references unknown entity '"
            ++ (splitFirstDot fkRef).1 ++ "'"]
        | some target =>
          if nameListHas (target.fields.map (fun g => g.name)) (splitFirstDot fkRef).2 then []
          else
            [entityName ++ "." ++ f.name
              ++ ": Foreign key references unknown field '"
              ++ (splitFirstDot fkRef).1 ++ "." ++ (splitFirstDot fkRef).2 ++ "'"]

/-- `JSONMetadataLoader.validate_foreign_keys`: every error from every
field of every entity, in order, never raising. -/
def validateForeignKeys (m : JSONMetadata) : List String :=
  m.entities.flatMap (fun e => e.fields.flatMap (fkFieldErrors m.entities e.name))

/-- A field "carries" a foreign-key descriptor in the sense of the loop
guard: the dict is present and non-empty. -/
def fkActive (f : FieldMetadata) : Bool :=
  match f.foreign_key with
  | none => false
  | some fk => !fk.isEmpty

/-- A carried descriptor is well-formed: its references string contains
a dot, the named entity exists, and the named field exists on it. -/
def fkRefOk (ents : List EntityMetadata) (f : FieldMetadata) : Bool :=
  let fkRef := ((f.foreign_key.getD []).lookup "references").getD ""
  strContains fkRef "." &&
    (match findEntity ents (splitFirstDot fkRef).1 with
     | none => false
     | some target =>
       nameListHas (target.fields.map (fun g => g.name)) (splitFirstDot fkRef).2)

theorem fkFieldErrors_length (ents : List EntityMetadata) (en : String)
    (f : FieldMetadata) :
    (fkFieldErrors ents en f).length
      = if fkActive f && !fkRefOk ents f then 1 else 0 := by
  unfold fkFieldErrors fkActive fkRefOk
  cases f.foreign_key with
  | none => simp
  | some fk =>
    cases fk with
    | nil => simp
    | cons kv rest =>
      simp only [Option.getD_some]
      rcases Bool.dichotomy
          (strContains ((List.lookup "references" (kv :: rest)).getD "") ".") with hdot | hdot
      · simp [hdot]
      · rcases Option.eq_none_or_eq_some
            (findEntity ents
              (splitFirstDot ((List.lookup "references" (kv :: rest)).getD "")).1)
          with hfind | ⟨target, hfind⟩
        · simp [hdot, hfind]
        · rcases Bool.dichotomy
              (nameListHas (target.fields.map (fun g => g.name))
                (splitFirstDot ((List.lookup "references" (kv :: rest)).getD "")).2)
            with hmem | hmem <;>
          simp [hdot, hfind, hmem]

theorem fkFieldErrors_eq_nil_iff (ents : List EntityMetadata) (en : String)
    (f : FieldMetadata) :
    fkFieldErrors ents en f = []
      ↔ (fkActive f = true → fkRefOk ents f = true) := by
  have h := fkFieldErrors_length ents en f
  constructor
  · intro hnil ha
    rw [hnil] at h
    rcases Bool.dichotomy (fkRefOk ents f) with hok | hok
    · rw [ha, hok] at h
      simp at h
    · exact hok
  · intro himp
    have hz : (fkFieldErrors ents en f).length = 0 := by
      rw [h]
      rcases Bool.dichotomy (fkActive f) with ha | ha
      · simp [ha]
      · simp [ha, himp ha]
    exact List.eq_nil_of_length_eq_zero hz

theorem fields_flatMap_length (ents : List EntityMetadata) (en : String)
    (fs : List FieldMetadata) :
    (fs.flatMap (fkFieldErrors ents en)).length
      = (fs.filter (fun f => fkActive f && !fkRefOk ents f)).length := by
  induction fs with
  | nil => rfl
  | cons f t ih =>
    rw [List.flatMap_cons, List.length_append, ih, fkFieldErrors_length,
      List.filter_cons]
    rcases Bool.dichotomy (fkActive f && !fkRefOk ents f) with hv | hv <;>
      simp [hv, Nat.add_comm]

theorem entities_flatMap_length (ents : List EntityMetadata) :
    ∀ l : List EntityMetadata,
      (l.flatMap (fun e => e.fields.flatMap (fkFieldErrors ents e.name))).length
        = (l.map (fun e =>
            (e.fields.filter (fun f => fkActive f && !fkRefOk ents f)).length)).sum := by
  intro l
  induction l with
  | nil => rfl
  | cons e t ih =>
    rw [List.flatMap_cons, List.length_append, ih, fields_flatMap_length,
      List.map_cons, List.sum_cons]

theorem validateForeignKeys_length (m : JSONMetadata) :
    (validateForeignKeys m).length
      = (m.entities.map (fun e =>
          (e.fields.filter (fun f => fkActive f && !fkRefOk m.entities f)).length)).sum :=
  entities_flatMap_length m.entities m.entities

theorem validateForeignKeys_eq_nil_iff (m : JSONMetadata) :
    validateForeignKeys m = []
      ↔ ∀ e ∈ m.entities, ∀ f ∈ e.fields,
          fkActive f = true → fkRefOk m.entities f = true := by
  rw [← List.length_eq_zero, validateForeignKeys_length, List.sum_eq_zero_iff]
  constructor
  · intro h e he f hf ha
    have h2 := h _ (List.mem_map_of_mem _ he)
    have h3 := List.filter_eq_nil_iff.mp (List.length_eq_zero.mp h2) f hf
    rcases Bool.dichotomy (fkRefOk m.entities f) with hok | hok
    · exact absurd (by simp [ha, hok]) h3
    · exact hok
  · intro h x hx
    obtain ⟨e, he, rfl⟩ := List.mem_map.mp hx
    rw [List.length_eq_zero, List.filter_eq_nil_iff]
    intro f hf hpred
    rw [Bool.and_eq_true, Bool.not_eq_true'] at hpred
    exact absurd (h e he f hf hpred.1) (by simp [hpred.2])

/-- A concrete metadata document: a `Customer` entity with an `id`
field, and an `Order` entity whose `customer_id` field carries a
foreign-key descriptor referencing `NonExistent.id`. -/
def customerEntityMeta : EntityMetadata :=
  { name := "Customer", table_name := "customers", description := "Customers"
    fields := [{ name := "id", type := "uuid", primary := true }]
    endpoints := { base_path := "/customers" } }

def orderEntityMetaBad : EntityMetadata :=
  { name := "Order", table_name := "orders", description := "Orders"
    fields := [{ name := "customer_id", type := "uuid",
                 foreign_key := some [("references", "NonExistent.id")] }]
    endpoints := { base_path := "/orders" } }

def shopAppMeta : AppMetadata :=
  { name := "shop", description := "A shop", version := "1.0.0"
    backend := [("framework", .s "fastapi")] }

def metadataBadFK : JSONMetadata :=
  { app := shopAppMeta, entities := [customerEntityMeta, orderEntityMetaBad] }

/-- The same document with the reference corrected to `Customer.id`. -/
def metadataFixedFK : JSONMetadata :=
  { app := shopAppMeta
    entities := [customerEntityMeta,
      { orderEntityMetaBad with
        fields := [{ name := "customer_id", type := "uuid",
                     foreign_key := some [("references", "Customer.id")] }] }] }

/-- **C6.** `validate_foreign_keys` returns one entry per violation and
never raises (the embedding is total): the result is empty exactly when
every carried foreign-key descriptor has a dotted reference naming an
existing entity and an existing field on it; the number of entries
equals the number of violating fields; and the concrete
`NonExistent.id` document yields exactly one entry mentioning
"NonExistent" while the corrected document yields none. -/
theorem foreign_key_validation :
    (∀ m : JSONMetadata,
      (validateForeignKeys m = []
        ↔ ∀ e ∈ m.entities, ∀ f ∈ e.fields,
            fkActive f = true → fkRefOk m.entities f = true)
      ∧ (validateForeignKeys m).length
          = (m.entities.map (fun e =>
              (e.fields.filter (fun f => fkActive f && !fkRefOk m.entities f)).length)).sum)
    ∧ validateForeignKeys metadataBadFK
        = ["Order.customer_id: Foreign key references unknown entity 'NonExistent'"]
    ∧ strContains
        "Order.customer_id: Foreign key references unknown entity 'NonExistent'"
        "NonExistent" = true
    ∧ validateForeignKeys metadataFixedFK = [] := by
  refine ⟨fun m => ⟨validateForeignKeys_eq_nil_iff m, validateForeignKeys_length m⟩,
    ?_, ?_, ?_⟩ <;> decide

/-! ## `api_forge/generators/artifacts.py` — artifacts and statuses -/

/-- `ArtifactType(str, Enum)`. -/
inductive ArtifactType where
  | model
  | schema
  | repository
  | service
  | router
  | test
  | migration
  | config
deriving DecidableEq, Repr

/-- `ArtifactStatus(str, Enum)`. -/
inductive ArtifactStatus where
  | pending
  | generated
  | validated
  | written
  | error
deriving DecidableEq, Repr

/-- `ArtifactStatus.value`. -/
def artifactStatusValue : ArtifactStatus → String
  | .pending => "pending"
  | .generated => "generated"
  | .validated => "validated"
  | .written => "written"
  | .error => "error"

/-- `CodeArtifact` (`artifacts.py`); the destination path is carried as
a string. -/
structure CodeArtifact where
  type : ArtifactType
  path : String
  content : String
  entity_name : String
  language : String := "python"
  status : ArtifactStatus := .pending
  dependencies : List String := []
  metadata : List (String × MetaValue) := []
deriving DecidableEq, Repr

/-- `CodeArtifact.mark_written`. -/
def markWritten (a : CodeArtifact) : CodeArtifact :=
  { a with status := .written }

/-- `CodeArtifact.mark_error`. -/
def markError (a : CodeArtifact) : CodeArtifact :=
  { a with status := .error }

/-! ## The file system and writing

The disk is an association list from path to content; insertion
shadows.  `pathlib`'s `/` join is string concatenation with a
separator.  An I/O failure of `write_text` (the `except` branch of the
writers) is modelled by the oracle `failing`. -/

/-- The file-system state. -/
abbrev FS := List (String × String)

/-- `Path.exists` / `read`: look a path up. -/
def fsGet (fs : FS) (p : String) : Option String :=
  fs.lookup p

/-- `Path.write_text`. -/
def fsSet (fs : FS) (p : String) (content : String) : FS :=
  (p, content) :: fs

/-- `project_path / artifact.path`. -/
def joinPath (root rel : String) : String :=
  root ++ "/" ++ rel

/-- `BaseGenerator.write_artifact` (`generators/base.py`): refuse to
overwrite an existing file unless forced (returning failure, touching
nothing); otherwise write, marking the artifact written on success or
errored on an I/O failure.  Returns (success flag, file system,
artifact). -/
def writeArtifactBase (failing : String → Bool) (a : CodeArtifact)
    (projectPath : String) (fs : FS) (force : Bool) : Bool × FS × CodeArtifact :=
  let filePath := joinPath projectPath a.path
  if (fsGet fs filePath).isSome && !force then (false, fs, a)
  else if failing filePath then (false, fs, markError a)
  else (true, fsSet fs filePath a.content, markWritten a)

/-- `GenerationOrchestrator._write_artifact` (`orchestrator.py`): like
the base writer but without the existence check (the caller's loop
performs it). -/
def writeArtifactOrch (failing : String → Bool) (projectPath : String)
    (a : CodeArtifact) (fs : FS) : Bool × FS × CodeArtifact :=
  let filePath := joinPath projectPath a.path
  if failing filePath then (false, fs, markError a)
  else (true, fsSet fs filePath a.content, markWritten a)

/-- `GenerationOrchestrator._write_artifacts`: per artifact, skip (file
exists and not forced — the artifact is left untouched) or write;
returns the artifact list (in Python the same objects, mutated in
place), the file system and the written/skipped counters. -/
def writeArtifactsOrch (failing : String → Bool) (projectPath : String) :
    List CodeArtifact → FS → Bool → List CodeArtifact × FS × Nat × Nat
  | [], fs, _ => ([], fs, 0, 0)
  | a :: t, fs, force =>
    if (fsGet fs (joinPath projectPath a.path)).isSome && !force then
      let r := writeArtifactsOrch failing projectPath t fs force
      (a :: r.1, r.2.1, r.2.2.1, r.2.2.2 + 1)
    else
      let w := writeArtifactOrch failing projectPath a fs
      let r := writeArtifactsOrch failing projectPath t w.2.1 force
      (w.2.2 :: r.1, r.2.1, if w.1 then r.2.2.1 + 1 else r.2.2.1, r.2.2.2)

/-! ## `api_forge/generators/orchestrator.py` — validation and the
route-registry patch -/

/-- `CodeGenerationError` (`core/exceptions.py`): message plus a
structured-detail bag.  `str(e)` of such an exception is its message
(the base class passes only the message to `Exception.__init__`). -/
structure CodeGenError where
  message : String
  details : List (String × MetaValue)
deriving DecidableEq, Repr

/-- `GenerationOrchestrator._validate_artifacts`: collect every
artifact whose status value is not "validated" and raise one
code-generation error carrying the full list in its detail bag. -/
def validateArtifacts (arts : List CodeArtifact) : Except CodeGenError Unit :=
  let errors := arts.filterMap (fun a =>
    if !(artifactStatusValue a.status == "validated") then
      some (a.path ++ ": Not validated")
    else none)
  if !errors.isEmpty then
    .error { message := "Artifact validation failed"
             details := [("errors", .strList errors)] }
  else .ok ()

/-- Python `s.startswith(prefix)`. -/
def strStartsWith (s pre : String) : Bool :=
  pre.data.isPrefixOf s.data

/-- The index-finding loops of `_update_router_registry`: one past the
last matching line, or 0 when none matches. -/
def lastMatchSucc (p : String → Bool) (lines : List String) : Nat :=
  lines.enum.foldl (fun acc il => if p il.2 then il.1 + 1 else acc) 0

/-- Python `list.insert(idx, x)`. -/
def insertAt (lines : List String) (idx : Nat) (l : String) : List String :=
  lines.take idx ++ [l] ++ lines.drop idx

/-- `GenerationOrchestrator._update_router_registry`: patch the
route-aggregator file with an import line and a registration line
for the new entity, skipping entirely when the file is missing or
its import line is already present. -/
def updateRouterRegistry (projectPath appName entityName : String) (fs : FS) : FS :=
  let routerFile := joinPath projectPath (appName ++ "/api/v1/router.py")
  match fsGet fs routerFile with
  | none => fs
  | some content =>
    let entityLower := strLower entityName
    let importLine := "from " ++ appName ++ ".api.v1.endpoints import " ++ entityLower
    let includeLine := "api_router.include_router(" ++ entityLower
      ++ ".router, prefix=\"/" ++ entityLower ++ "s\", tags=[\"" ++ entityName ++ "\"])"
    if strContains content importLine then fs
    else
      let lines := content.splitOn "\n"
      let importIdx := lastMatchSucc
        (fun l => strStartsWith l "from" && strContains l "endpoints import") lines
      let lines1 := if importIdx > 0 then insertAt lines importIdx importLine else lines
      let includeIdx := lastMatchSucc
        (fun l => strContains l "api_router.include_router") lines1
      let lines2 :=
        if includeIdx > 0 then insertAt lines1 includeIdx includeLine
        else lines1 ++ ["", includeLine]
      fsSet fs routerFile (String.intercalate "\n" lines2)

/-- The outer `except` of `generate_entity`: any exception is re-raised
as a code-generation error naming the entity, whose detail bag carries
the entity name and `str(e)` — for a pipeline exception, its
message. -/
def wrapGenerationError (entityName : String) (e : CodeGenError) : CodeGenError :=
  { message := "Failed to generate entity " ++ entityName ++ ": " ++ e.message
    details := [("entity", .s entityName), ("error", .s e.message)] }

/-- `GenerationOrchestrator.generate_entity` from the validation gate
on (steps 4–6).  Steps 1–3 (analysis and template-driven artifact
generation) are network- and template-bound; the embedding takes their
output — the generated artifact list — as input.  After generation the
only raiser is `_validate_artifacts`: the write loop and the registry
patch catch their own errors internally. -/
def generateEntity (failing : String → Bool)
    (projectPath appName entityName : String) (artifacts : List CodeArtifact)
    (fs : FS) (force writeFiles : Bool) :
    Except CodeGenError (List CodeArtifact) × FS :=
  match validateArtifacts artifacts with
  | .error e => (.error (wrapGenerationError entityName e), fs)
  | .ok _ =>
    if writeFiles then
      let r := writeArtifactsOrch failing projectPath artifacts fs force
      let fs2 := updateRouterRegistry projectPath appName entityName r.2.1
      (.ok r.1, fs2)
    else (.ok artifacts, fs)

/-! ## Claim C2: the validation gate -/

/-- Whether a detail value mentions a string. -/
def valueMentions (v : MetaValue) (s : String) : Bool :=
  match v with
  | .s str => strContains str s
  | .strList strs => strs.any (fun str => strContains str s)
  | _ => false

/-- The claim's "structured detail lists every artifact that is not
validated": every non-validated artifact's path is mentioned by some
entry of the error's detail bag. -/
def detailsListArtifacts (e : CodeGenError) (arts : List CodeArtifact) : Bool :=
  arts.all (fun a =>
    if artifactStatusValue a.status == "validated" then true
    else e.details.any (fun kv => valueMentions kv.2 a.path))

theorem filterMap_guard {α β : Type} (p : α → Bool) (g : α → β) (l : List α) :
    l.filterMap (fun a => if p a then some (g a) else none)
      = (l.filter p).map g := by
  induction l with
  | nil => rfl
  | cons a t ih =>
    by_cases hp : p a <;> simp [hp, ih]

theorem validateArtifacts_error (arts : List CodeArtifact)
    (h : ∃ a ∈ arts, artifactStatusValue a.status ≠ "validated") :
    validateArtifacts arts
      = .error { message := "Artifact validation failed"
                 details := [("errors", .strList
                   ((arts.filter (fun a => !(artifactStatusValue a.status == "validated"))).map
                     (fun a => a.path ++ ": Not validated")))] } := by
  obtain ⟨a, ha, hne⟩ := h
  have hp : (!(artifactStatusValue a.status == "validated")) = true := by
    simp [hne]
  have hmem : a ∈ arts.filter (fun a => !(artifactStatusValue a.status == "validated")) :=
    List.mem_filter.mpr ⟨ha, hp⟩
  unfold validateArtifacts
  rw [filterMap_guard]
  rw [if_pos]
  have hne2 : arts.filter (fun a => !(artifactStatusValue a.status == "validated")) ≠ [] := by
    intro hcontra
    rw [hcontra] at hmem
    exact absurd hmem (List.not_mem_nil a)
  simp [List.isEmpty_iff, hne2]

/-- **C2 (amended).** If any produced artifact is not validated,
`generate_entity` raises a single code-generation error and the file
system is untouched — nothing is written and the route aggregator is
not patched, the gate running strictly before any writing.  The inner
validation error's structured detail does list every non-validated
artifact, but `generate_entity`'s outer handler re-wraps it, so the
error reaching the caller carries only the entity name and the inner
error's message. -/
theorem validation_gate_amended (failing : String → Bool)
    (projectPath appName entityName : String) (artifacts : List CodeArtifact)
    (fs : FS) (force writeFiles : Bool)
    (h : ∃ a ∈ artifacts, artifactStatusValue a.status ≠ "validated") :
    generateEntity failing projectPath appName entityName artifacts fs force writeFiles
      = (.error { message := "Failed to generate entity " ++ entityName
                    ++ ": Artifact validation failed"
                  details := [("entity", .s entityName),
                    ("error", .s "Artifact validation failed")] }, fs)
    ∧ validateArtifacts artifacts
      = .error { message := "Artifact validation failed"
                 details := [("errors", .strList
                   ((artifacts.filter (fun a => !(artifactStatusValue a.status == "validated"))).map
                     (fun a => a.path ++ ": Not validated")))] } := by
  have hval := validateArtifacts_error artifacts h
  refine ⟨?_, hval⟩
  unfold generateEntity
  rw [hval]
  simp only [wrapGenerationError]
  rw [String.append_assoc]
  rfl

/-- Two concrete generated artifacts, neither of which reached the
"validated" status. -/
def modelArtifactGen : CodeArtifact :=
  { type := .model, path := "shop_api/models/person.py"
    content := "class Person: pass", entity_name := "Person"
    status := .generated }

def schemaArtifactPend : CodeArtifact :=
  { type := .schema, path := "shop_api/schemas/person.py"
    content := "class PersonSchema: pass", entity_name := "Person"
    status := .pending }

/-- **C2 counterexample.** At a concrete run with two non-validated
artifacts, `generate_entity` does raise a single code-generation error
before writing anything — but the error it propagates carries only
`entity` and `error` (the inner message) in its structured detail, so
the detail does not list the non-validated artifacts, contrary to the
claim. -/
theorem validation_gate_counterexample :
    (generateEntity (fun _ => false) "proj" "shop_api" "Person"
        [modelArtifactGen, schemaArtifactPend] [] false true).1
      = .error { message := "Failed to generate entity Person: Artifact validation failed"
                 details := [("entity", .s "Person"),
                   ("error", .s "Artifact validation failed")] }
    ∧ detailsListArtifacts
        { message := "Failed to generate entity Person: Artifact validation failed"
          details := [("entity", .s "Person"),
            ("error", .s "Artifact validation failed")] }
        [modelArtifactGen, schemaArtifactPend] = false := by
  exact ⟨rfl, by decide⟩

/-- Witness for C2 (amended): the amended theorem applied at the
concrete two-artifact run. -/
theorem validation_gate_amended_witness :
    generateEntity (fun _ => false) "proj" "shop_api" "Person"
        [modelArtifactGen, schemaArtifactPend] [] false true
      = (.error { message := "Failed to generate entity Person: Artifact validation failed"
                  details := [("entity", .s "Person"),
                    ("error", .s "Artifact validation failed")] }, ([] : FS)) :=
  (validation_gate_amended (fun _ => false) "proj" "shop_api" "Person"
    [modelArtifactGen, schemaArtifactPend] [] false true
    ⟨schemaArtifactPend, by decide, by decide⟩).1

/-! ## Claim C10: the overwrite-skip discipline -/

theorem fsGet_fsSet_ne (fs : FS) (p c q : String) (h : q ≠ p) :
    fsGet (fsSet fs p c) q = fsGet fs q := by
  simp only [fsGet, fsSet, List.lookup]
  rw [beq_false_of_ne h]

theorem fsGet_eq_none_of_isSome_false {fs : FS} {p : String}
    (h : (fsGet fs p).isSome = false) : fsGet fs p = none := by
  cases hf : fsGet fs p with
  | none => rfl
  | some c => rw [hf] at h; simp at h

/-- The per-artifact outcome of the orchestrator's write loop relative
to the file system at loop entry: skipped artifacts come out untouched,
the rest are written or errored. -/
def writeOutcome (failing : String → Bool) (projectPath : String)
    (fs : FS) (a : CodeArtifact) : CodeArtifact :=
  if (fsGet fs (joinPath projectPath a.path)).isSome then a
  else if failing (joinPath projectPath a.path) then markError a
  else markWritten a

theorem writeArtifactsOrch_spec (failing : String → Bool) (projectPath : String) :
    ∀ (arts : List CodeArtifact) (fs : FS),
      arts.Pairwise (fun a b => joinPath projectPath a.path ≠ joinPath projectPath b.path) →
      (writeArtifactsOrch failing projectPath arts fs false).1
          = arts.map (writeOutcome failing projectPath fs)
        ∧ ∀ p c, fsGet fs p = some c →
            fsGet (writeArtifactsOrch failing projectPath arts fs false).2.1 p = some c := by
  intro arts
  induction arts with
  | nil => exact fun fs _ => ⟨rfl, fun p c h => h⟩
  | cons a t ih =>
    intro fs hpw
    obtain ⟨hhead, htail⟩ := List.pairwise_cons.mp hpw
    rcases Bool.dichotomy ((fsGet fs (joinPath projectPath a.path)).isSome) with hex | hex
    · have hnone := fsGet_eq_none_of_isSome_false hex
      rcases Bool.dichotomy (failing (joinPath projectPath a.path)) with hfail | hfail
      · -- write succeeds
        have ih1 := ih (fsSet fs (joinPath projectPath a.path) a.content) htail
        have hcong : ∀ b ∈ t,
            writeOutcome failing projectPath
                (fsSet fs (joinPath projectPath a.path) a.content) b
              = writeOutcome failing projectPath fs b := by
          intro b hb
          unfold writeOutcome
          rw [fsGet_fsSet_ne _ _ _ _ (fun he => hhead b hb he.symm)]
        constructor
        · simp only [writeArtifactsOrch, writeArtifactOrch, hex, hfail,
            Bool.not_false, Bool.and_true, Bool.false_eq_true, if_false,
            List.map_cons]
          rw [ih1.1, List.map_congr_left hcong]
          unfold writeOutcome
          rw [hex, hfail]
          rfl
        · intro p c hpc
          have hpne : p ≠ joinPath projectPath a.path := by
            intro he
            rw [he, hnone] at hpc
            exact Option.noConfusion hpc
          have hpres := ih1.2 p c (by rw [fsGet_fsSet_ne _ _ _ _ hpne]; exact hpc)
          simpa only [writeArtifactsOrch, writeArtifactOrch, hex, hfail,
            Bool.not_false, Bool.and_true, Bool.false_eq_true, if_false]
            using hpres
      · -- I/O failure: the artifact is errored, the file system untouched
        have ih1 := ih fs htail
        constructor
        · simp only [writeArtifactsOrch, writeArtifactOrch, hex, hfail,
            Bool.not_false, Bool.and_true, Bool.false_eq_true, if_false,
            if_true, List.map_cons]
          rw [ih1.1]
          unfold writeOutcome
          rw [hex, hfail]
          rfl
        · intro p c hpc
          have hpres := ih1.2 p c hpc
          simpa only [writeArtifactsOrch, writeArtifactOrch, hex, hfail,
            Bool.not_false, Bool.and_true, Bool.false_eq_true, if_false,
            if_true] using hpres
    · -- the file exists: skip, leaving artifact and file untouched
      have ih1 := ih fs htail
      constructor
      · simp only [writeArtifactsOrch, hex, Bool.not_false, Bool.and_true,
          if_true, List.map_cons]
        rw [ih1.1]
        unfold writeOutcome
        rw [hex]
        rfl
      · intro p c hpc
        have hpres := ih1.2 p c hpc
        simpa only [writeArtifactsOrch, hex, Bool.not_false, Bool.and_true,
          if_true] using hpres

/-- **C10.** With `force = false`: (1) `BaseGenerator.write_artifact`
called on an artifact whose destination file exists returns failure
without raising (the embedding is total), leaves the file system —
hence the existing file's content — unchanged, and returns the
artifact exactly as it was, its status untouched; (2) the
orchestrator's write loop applies the same discipline per artifact
(for destination paths that do not collide): each artifact whose file
existed at loop entry comes out unchanged while its siblings are
written (or errored on I/O failure), and every pre-existing file's
content survives the loop. -/
theorem write_skip_discipline :
    (∀ (failing : String → Bool) (projectPath : String) (a : CodeArtifact)
        (fs : FS) (c : String),
      fsGet fs (joinPath projectPath a.path) = some c →
      writeArtifactBase failing a projectPath fs false = (false, fs, a))
    ∧ (∀ (failing : String → Bool) (projectPath : String)
        (arts : List CodeArtifact) (fs : FS),
      arts.Pairwise (fun a b => joinPath projectPath a.path ≠ joinPath projectPath b.path) →
      (writeArtifactsOrch failing projectPath arts fs false).1
          = arts.map (writeOutcome failing projectPath fs)
        ∧ ∀ p c, fsGet fs p = some c →
            fsGet (writeArtifactsOrch failing projectPath arts fs false).2.1 p = some c) := by
  constructor
  · intro failing projectPath a fs c h
    unfold writeArtifactBase
    simp only []
    rw [h]
    rfl
  · exact writeArtifactsOrch_spec

/-- Witness for C10: a run over one artifact whose file exists and one
whose file does not — the first is skipped untouched, the second
written. -/
theorem write_skip_discipline_witness :
    writeArtifactBase (fun _ => false) modelArtifactGen "proj"
        [("proj/shop_api/models/person.py", "original")] false
      = (false, [("proj/shop_api/models/person.py", "original")], modelArtifactGen)
    ∧ (writeArtifactsOrch (fun _ => false) "proj"
        [modelArtifactGen, schemaArtifactPend]
        [("proj/shop_api/models/person.py", "original")] false).1
      = [modelArtifactGen, markWritten schemaArtifactPend] := by
  refine ⟨write_skip_discipline.1 (fun _ => false) "proj" modelArtifactGen
      [("proj/shop_api/models/person.py", "original")] "original" (by decide), ?_⟩
  rw [(write_skip_discipline.2 (fun _ => false) "proj"
      [modelArtifactGen, schemaArtifactPend]
      [("proj/shop_api/models/person.py", "original")] (by decide)).1]
  decide

/-! ## `api_forge/core/config.py` — the project configuration

`save_to_file` writes `yaml.dump(self.model_dump(exclude_none=True))`;
`load_from_file` reads the file, runs `yaml.safe_load`, and validates
with `ProjectConfig(**data)`.  The PyYAML layer is modelled as the
identity on the value tree: `yaml.dump` emits a document that
`safe_load` parses back to an equal tree of str/int/bool/dict values
(PyYAML quotes ambiguous scalars such as numeric-looking strings), so
saving and loading compose to `parse ∘ dump` on the tree.  All value
trees in play are at most three levels deep (config → section → scalar,
and `entities` → entity → scalar), captured by `YamlVal`. -/

structure DatabaseConfig where
  provider : String := "postgresql"
  host : String := "localhost"
  port : Int := 5432
  name : String := "apiforge_db"
  user : Option String := none
  password : Option String := none
deriving DecidableEq, Repr

structure GenerationConfig where
  ai_enabled : Bool := true
  ai_provider : String := "anthropic"
  ai_model : String := "claude-sonnet-4"
  use_async : Bool := true
  use_soft_delete : Bool := true
  use_audit_timestamps : Bool := true
  authentication : String := "jwt"
  enable_oauth2 : Bool := true
  enable_rbac : Bool := true
  enable_pagination : Bool := true
  enable_filtering : Bool := true
  enable_sorting : Bool := true
  default_page_size : Int := 20
  max_page_size : Int := 100
deriving DecidableEq, Repr

structure TestingConfig where
  coverage_threshold : Int := 80
  generate_factories : Bool := true
  generate_fixtures : Bool := true
  generate_tests : Bool := true
deriving DecidableEq, Repr

structure DeploymentConfig where
  dockerfile : Bool := true
  docker_compose : Bool := true
  kubernetes : Bool := false
  ci_cd : String := "github_actions"
deriving DecidableEq, Repr

structure ProjectConfig where
  name : String
  version : String := "1.0.0"
  description : String := "Auto-generated API from Schema.org"
  database : DatabaseConfig := {}
  generation : GenerationConfig := {}
  testing : TestingConfig := {}
  deployment : DeploymentConfig := {}
  entities : List (String × List (String × MetaValue)) := []
deriving DecidableEq, Repr

/-- A YAML value as it occurs in a saved configuration document: a
scalar, a section (dict of scalars), or the two-level `entities`
dict. -/
inductive YamlVal where
  | leaf (v : MetaValue)
  | map (kvs : List (String × MetaValue))
  | map2 (kvs : List (String × List (String × MetaValue)))
deriving DecidableEq, Repr

/-- A YAML document: the top-level dict. -/
abbrev YamlDoc := List (String × YamlVal)

/-- Lookup in the top-level dict. -/
def ygetDoc : YamlDoc → String → Option YamlVal
  | [], _ => none
  | (k, v) :: t, key => if k = key then some v else ygetDoc t key

/-- `model_dump(exclude_none=True)` of the nested configs: fields in
declaration order, `None`-valued optional fields omitted. -/
def dumpDatabase (d : DatabaseConfig) : List (String × MetaValue) :=
  [("provider", .s d.provider), ("host", .s d.host), ("port", .i d.port),
   ("name", .s d.name)]
  ++ (match d.user with | some u => [("user", .s u)] | none => [])
  ++ (match d.password with | some pw => [("password", .s pw)] | none => [])

def dumpGeneration (g : GenerationConfig) : List (String × MetaValue) :=
  [("ai_enabled", .b g.ai_enabled), ("ai_provider", .s g.ai_provider),
   ("ai_model", .s g.ai_model), ("use_async", .b g.use_async),
   ("use_soft_delete", .b g.use_soft_delete),
   ("use_audit_timestamps", .b g.use_audit_timestamps),
   ("authentication", .s g.authentication), ("enable_oauth2", .b g.enable_oauth2),
   ("enable_rbac", .b g.enable_rbac), ("enable_pagination", .b g.enable_pagination),
   ("enable_filtering", .b g.enable_filtering),
   ("enable_sorting", .b g.enable_sorting),
   ("default_page_size", .i g.default_page_size),
   ("max_page_size", .i g.max_page_size)]

def dumpTesting (t : TestingConfig) : List (String × MetaValue) :=
  [("coverage_threshold", .i t.coverage_threshold),
   ("generate_factories", .b t.generate_factories),
   ("generate_fixtures", .b t.generate_fixtures),
   ("generate_tests", .b t.generate_tests)]

def dumpDeployment (d : DeploymentConfig) : List (String × MetaValue) :=
  [("dockerfile", .b d.dockerfile), ("docker_compose", .b d.docker_compose),
   ("kubernetes", .b d.kubernetes), ("ci_cd", .s d.ci_cd)]

/-- `ProjectConfig.save_to_file`: the document written (through the
identity-modelled YAML layer). -/
def saveToFile (c : ProjectConfig) : YamlDoc :=
  [("name", .leaf (.s c.name)), ("version", .leaf (.s c.version)),
   ("description", .leaf (.s c.description)),
   ("database", .map (dumpDatabase c.database)),
   ("generation", .map (dumpGeneration c.generation)),
   ("testing", .map (dumpTesting c.testing)),
   ("deployment", .map (dumpDeployment c.deployment)),
   ("entities", .map2 c.entities)]

/-- The `validate_name` field validator: non-empty, and all characters
alphanumeric once hyphens and underscores are removed (with at least
one character remaining — Python's `isalnum` is false on the empty
string). -/
def validProjectName (v : String) : Bool :=
  !v.isEmpty &&
    (let stripped := v.data.filter (fun ch => ch ≠ '-' && ch ≠ '_')
     !stripped.isEmpty && stripped.all Char.isAlphanum)

/-! Pydantic field extraction on the loaded tree: a present key must
hold a value of the declared shape; an absent key falls back to the
field's default; `Optional[str]` fields accept an explicit null. -/

def sectionStrD (m : List (String × MetaValue)) (key dflt : String) :
    Except String String :=
  match jget m key with
  | none => .ok dflt
  | some (.s v) => .ok v
  | some _ => .error (key ++ ": string expected")

def sectionBoolD (m : List (String × MetaValue)) (key : String) (dflt : Bool) :
    Except String Bool :=
  match jget m key with
  | none => .ok dflt
  | some (.b v) => .ok v
  | some _ => .error (key ++ ": boolean expected")

def sectionIntBounded (m : List (String × MetaValue)) (key : String)
    (dflt lo hi : Int) : Except String Int :=
  match jget m key with
  | none => .ok dflt
  | some (.i v) => if lo ≤ v ∧ v ≤ hi then .ok v else .error (key ++ ": out of range")
  | some _ => .error (key ++ ": integer expected")

def sectionOptStr (m : List (String × MetaValue)) (key : String) :
    Except String (Option String) :=
  match jget m key with
  | none => .ok none
  | some .null => .ok none
  | some (.s v) => .ok (some v)
  | some _ => .error (key ++ ": string expected")

def parseDatabase (m : List (String × MetaValue)) : Except String DatabaseConfig := do
  let provider ← sectionStrD m "provider" "postgresql"
  let host ← sectionStrD m "host" "localhost"
  let port ← sectionIntBounded m "port" 5432 1 65535
  let name ← sectionStrD m "name" "apiforge_db"
  let user ← sectionOptStr m "user"
  let password ← sectionOptStr m "password"
  return ⟨provider, host, port, name, user, password⟩

def parseGeneration (m : List (String × MetaValue)) : Except String GenerationConfig := do
  let ai_enabled ← sectionBoolD m "ai_enabled" true
  let ai_provider ← sectionStrD m "ai_provider" "anthropic"
  let ai_model ← sectionStrD m "ai_model" "claude-sonnet-4"
  let use_async ← sectionBoolD m "use_async" true
  let use_soft_delete ← sectionBoolD m "use_soft_delete" true
  let use_audit_timestamps ← sectionBoolD m "use_audit_timestamps" true
  let authentication ← sectionStrD m "authentication" "jwt"
  let enable_oauth2 ← sectionBoolD m "enable_oauth2" true
  let enable_rbac ← sectionBoolD m "enable_rbac" true
  let enable_pagination ← sectionBoolD m "enable_pagination" true
  let enable_filtering ← sectionBoolD m "enable_filtering" true
  let enable_sorting ← sectionBoolD m "enable_sorting" true
  let default_page_size ← sectionIntBounded m "default_page_size" 20 1 100
  let max_page_size ← sectionIntBounded m "max_page_size" 100 1 1000
  return ⟨ai_enabled, ai_provider, ai_model, use_async, use_soft_delete,
    use_audit_timestamps, authentication, enable_oauth2, enable_rbac,
    enable_pagination, enable_filtering, enable_sorting,
    default_page_size, max_page_size⟩

def parseTesting (m : List (String × MetaValue)) : Except String TestingConfig := do
  let coverage_threshold ← sectionIntBounded m "coverage_threshold" 80 0 100
  let generate_factories ← sectionBoolD m "generate_factories" true
  let generate_fixtures ← sectionBoolD m "generate_fixtures" true
  let generate_tests ← sectionBoolD m "generate_tests" true
  return ⟨coverage_threshold, generate_factories, generate_fixtures, generate_tests⟩

def parseDeployment (m : List (String × MetaValue)) : Except String DeploymentConfig := do
  let dockerfile ← sectionBoolD m "dockerfile" true
  let docker_compose ← sectionBoolD m "docker_compose" true
  let kubernetes ← sectionBoolD m "kubernetes" false
  let ci_cd ← sectionStrD m "ci_cd" "github_actions"
  return ⟨dockerfile, docker_compose, kubernetes, ci_cd⟩

/-- `ProjectConfig.load_from_file` after the YAML layer: reject an
empty document (`if not data:`), then validate as
`ProjectConfig(**data)` — required `name` with its validator, defaults
for everything absent, nested sections validated recursively. -/
def loadFromFile (doc : YamlDoc) : Except String ProjectConfig := do
  if doc.isEmpty then
    throw "Configuration file is empty"
  let name ← match ygetDoc doc "name" with
    | some (.leaf (.s v)) =>
      if validProjectName v then pure v
      else throw "Project name must contain only letters, numbers, hyphens, and underscores"
    | some _ => throw "name: string expected"
    | none => throw "name: field required"
  let version ← match ygetDoc doc "version" with
    | some (.leaf (.s v)) => pure v
    | some _ => throw "version: string expected"
    | none => pure "1.0.0"
  let description ← match ygetDoc doc "description" with
    | some (.leaf (.s v)) => pure v
    | some _ => throw "description: string expected"
    | none => pure "Auto-generated API from Schema.org"
  let database ← match ygetDoc doc "database" with
    | some (.map m) => parseDatabase m
    | some _ => throw "database: mapping expected"
    | none => parseDatabase []
  let generation ← match ygetDoc doc "generation" with
    | some (.map m) => parseGeneration m
    | some _ => throw "generation: mapping expected"
    | none => parseGeneration []
  let testing ← match ygetDoc doc "testing" with
    | some (.map m) => parseTesting m
    | some _ => throw "testing: mapping expected"
    | none => parseTesting []
  let deployment ← match ygetDoc doc "deployment" with
    | some (.map m) => parseDeployment m
    | some _ => throw "deployment: mapping expected"
    | none => parseDeployment []
  let entities ← match ygetDoc doc "entities" with
    | some (.map2 kvs) => pure kvs
    | some _ => throw "entities: mapping expected"
    | none => pure []
  return ⟨name, version, description, database, generation, testing,
    deployment, entities⟩

/-- The constraints pydantic enforces on any `ProjectConfig` it
accepts: the name validator and the four bounded integer fields. -/
def validProjectConfig (c : ProjectConfig) : Prop :=
  validProjectName c.name = true
  ∧ 1 ≤ c.database.port ∧ c.database.port ≤ 65535
  ∧ 1 ≤ c.generation.default_page_size
  ∧ c.generation.default_page_size ≤ 100
  ∧ 1 ≤ c.generation.max_page_size
  ∧ c.generation.max_page_size ≤ 1000
  ∧ 0 ≤ c.testing.coverage_threshold
  ∧ c.testing.coverage_threshold ≤ 100

instance (c : ProjectConfig) : Decidable (validProjectConfig c) := by
  unfold validProjectConfig
  infer_instance

theorem parseDatabase_dump (d : DatabaseConfig)
    (h1 : 1 ≤ d.port) (h2 : d.port ≤ 65535) :
    parseDatabase (dumpDatabase d) = .ok d := by
  obtain ⟨provider, host, port, name, user, password⟩ := d
  cases user <;> cases password <;>
    simp +decide [parseDatabase, dumpDatabase, sectionStrD, sectionIntBounded,
      sectionOptStr, jget, h1, h2, bind, Except.bind, pure, Except.pure]

theorem parseGeneration_dump (g : GenerationConfig)
    (h1 : 1 ≤ g.default_page_size) (h2 : g.default_page_size ≤ 100)
    (h3 : 1 ≤ g.max_page_size) (h4 : g.max_page_size ≤ 1000) :
    parseGeneration (dumpGeneration g) = .ok g := by
  obtain ⟨⟩ := g
  simp +decide [parseGeneration, dumpGeneration, sectionStrD, sectionBoolD,
    sectionIntBounded, jget, h1, h2, h3, h4, bind, Except.bind, pure, Except.pure]

theorem parseTesting_dump (t : TestingConfig)
    (h1 : 0 ≤ t.coverage_threshold) (h2 : t.coverage_threshold ≤ 100) :
    parseTesting (dumpTesting t) = .ok t := by
  obtain ⟨⟩ := t
  simp +decide [parseTesting, dumpTesting, sectionBoolD, sectionIntBounded,
    jget, h1, h2, bind, Except.bind, pure, Except.pure]

theorem parseDeployment_dump (d : DeploymentConfig) :
    parseDeployment (dumpDeployment d) = .ok d := by
  obtain ⟨⟩ := d
  simp +decide [parseDeployment, dumpDeployment, sectionStrD, sectionBoolD,
    jget, bind, Except.bind, pure, Except.pure]

theorem loadFromFile_saveToFile (c : ProjectConfig) (h : validProjectConfig c) :
    loadFromFile (saveToFile c) = .ok c := by
  obtain ⟨hn, hp1, hp2, hd1, hd2, hm1, hm2, hc1, hc2⟩ := h
  have hdb := parseDatabase_dump c.database hp1 hp2
  have hgen := parseGeneration_dump c.generation hd1 hd2 hm1 hm2
  have htest := parseTesting_dump c.testing hc1 hc2
  have hdep := parseDeployment_dump c.deployment
  simp +decide [loadFromFile, saveToFile, ygetDoc, hn, hdb, hgen, htest, hdep,
    bind, Except.bind, pure, Except.pure]

/-- **C5.** For every valid `ProjectConfig` (one pydantic accepts:
valid name, in-range bounded integers), saving to YAML and loading the
file back yields a configuration equal to the original in name,
version, description, and field-for-field on all four nested config
groups. -/
theorem project_config_roundtrip :
    ∀ c : ProjectConfig, validProjectConfig c →
      ∃ c', loadFromFile (saveToFile c) = .ok c'
        ∧ c'.name = c.name ∧ c'.version = c.version
        ∧ c'.description = c.description
        ∧ c'.database = c.database ∧ c'.generation = c.generation
        ∧ c'.testing = c.testing ∧ c'.deployment = c.deployment :=
  fun c h => ⟨c, loadFromFile_saveToFile c h, rfl, rfl, rfl, rfl, rfl, rfl, rfl⟩

/-- A concrete valid configuration exercising the optional fields and
the entities bag. -/
def sampleConfig : ProjectConfig :=
  { name := "my-api"
    database := { user := some "admin" }
    entities := [("Person", [("audit", .b true)])] }

/-- Witness for C5: the round-trip theorem applied at `sampleConfig`,
its validity discharged by evaluation. -/
theorem project_config_roundtrip_witness :
    ∃ c', loadFromFile (saveToFile sampleConfig) = .ok c'
      ∧ c'.name = sampleConfig.name ∧ c'.version = sampleConfig.version
      ∧ c'.description = sampleConfig.description
      ∧ c'.database = sampleConfig.database
      ∧ c'.generation = sampleConfig.generation
      ∧ c'.testing = sampleConfig.testing
      ∧ c'.deployment = sampleConfig.deployment :=
  project_config_roundtrip sampleConfig (by decide)

/-- Witness for C1: the theorem applied at a concrete entity and a
concrete failure. -/
theorem analyze_failure_returns_bare_analysis_witness :
    analyze entityWithAuditOnly (.error "connection timed out")
      = bareAnalysis entityWithAuditOnly :=
  (analyze_failure_returns_bare_analysis entityWithAuditOnly "connection timed out").1

/-- Witness for C6: the theorem's concrete conjunct, applied
directly. -/
theorem foreign_key_validation_witness :
    validateForeignKeys metadataBadFK
      = ["Order.customer_id: Foreign key references unknown entity 'NonExistent'"] :=
  foreign_key_validation.2.1
